import Mathlib

/-!
Shallow embedding of the activity sampling and heartbeat-merging pipeline of
aw-watcher-window-rs (src/main.rs).

Modelling conventions:
- A compiled regular expression is represented by its matcher, a function
  `String → Bool` (the loop only ever calls `is_match` on process names).
- Time is an integer count of milliseconds (chrono timestamps); `now - 1`
  models `now - Duration::milliseconds(1)`.
- The backend client is an environment parameter `sendOk : Nat → Bool` giving
  the success of the i-th heartbeat send attempted during one tick.
- `poll_time` is a `u32`; the merge window `(poll_time + 1000)` is computed in
  32-bit arithmetic, modelled as `% 2 ^ 32` on `Nat`.
- Platform query outcomes at the top of the loop body are the inductive
  `PlatformResult`: each failing `match` arm of the source becomes one
  constructor, and the success path carries the process name and window title.
-/

/-- The observed data of one tick after redaction: the `app` and `title`
fields of the heartbeat event data map. -/
structure ActivitySample where
  app : String
  title : String
deriving DecidableEq

/-- The redaction configuration built in `main` from the parsed arguments:
the `exclude_title` flag and the two compiled pattern lists. -/
structure RuleSet where
  excludeTitle : Bool
  excludeTitleProcesses : List (String → Bool)
  includeTitleProcesses : List (String → Bool)

/-- The title decision of the loop body: if (`exclude_title` or some exclude
pattern matches the process name) and no include pattern matches the process
name, the title is replaced by the process name, otherwise the raw window
title is kept. -/
def redact (rules : RuleSet) (processName windowTitle : String) : String :=
  if (rules.excludeTitle || rules.excludeTitleProcesses.any (fun r => r processName))
      && !(rules.includeTitleProcesses.any (fun r => r processName)) then
    processName
  else
    windowTitle

/-- Packaging of one observation into the sample reported for the tick:
`app` is the process name, `title` is the redacted title. -/
def normalizeSample (rules : RuleSet) (processName windowTitle : String) : ActivitySample :=
  { app := processName, title := redact rules processName windowTitle }

/-- One outbound heartbeat as built by `fn ping`: event data, timestamp,
zero duration, and the merge window `(poll_time + 1000)` computed in `u32`
arithmetic and passed to `client.heartbeat`. -/
structure HeartbeatEvent where
  data : ActivitySample
  timestamp : Int
  duration : Int
  mergeWindow : Nat
deriving DecidableEq

/-- `fn ping`: builds the event with duration zero and sends it with merge
window `(poll_time + 1000)` (a `u32` sum, hence modulo `2 ^ 32`). -/
def ping (pollTime : Nat) (data : ActivitySample) (timestamp : Int) : HeartbeatEvent :=
  { data := data, timestamp := timestamp, duration := 0,
    mergeWindow := (pollTime + 1000) % 2 ^ 32 }

/-- The mutable loop state: `prev_app` and `prev_title`. -/
structure MergerState where
  prevApp : String
  prevTitle : String
deriving DecidableEq

/-- The state before the first tick: both strings are `String::new()`. -/
def initState : MergerState := { prevApp := "", prevTitle := "" }

/-- The heartbeat-emitting tail of the loop body, given the redacted `app`
and `title` of this tick and the current time. Returns the list of attempted
sends (each with its outcome) and the updated state.

Source behaviour: if the sample equals the previous one, a single keep-alive
ping at `now` is attempted and the state is kept. Otherwise a ping with the
previous data at `now - 1` ms is attempted; on failure the loop continues
(state kept, no second ping). Then a ping with the new data at `now` is
attempted; on failure the loop continues (state kept). Only when both sends
succeed are `prev_app` and `prev_title` assigned the new sample. -/
def tickMerge (pollTime : Nat) (sendOk : Nat → Bool) (st : MergerState)
    (app title : String) (now : Int) : List (HeartbeatEvent × Bool) × MergerState :=
  if app = st.prevApp ∧ title = st.prevTitle then
    ([(ping pollTime ⟨app, title⟩ now, sendOk 0)], st)
  else
    let closeHb := ping pollTime ⟨st.prevApp, st.prevTitle⟩ (now - 1)
    if sendOk 0 then
      let openHb := ping pollTime ⟨app, title⟩ now
      if sendOk 1 then
        ([(closeHb, true), (openHb, true)], ⟨app, title⟩)
      else
        ([(closeHb, true), (openHb, false)], st)
    else
      ([(closeHb, false)], st)

/-- Outcome of the platform queries at the top of the loop body. Each failing
arm of the source (`GetForegroundWindow` returning nothing, `OpenProcess`
failing, `QueryFullProcessImageName` failing, the process name not being
valid UTF-8, `GetWindowText` failing) is one constructor; the success path
carries the process file name and the raw window title. -/
inductive PlatformResult where
  | noWindow
  | openProcessFailed
  | queryPathFailed
  | nameNotUtf8
  | getTextFailed
  | ok (processName windowTitle : String)
deriving DecidableEq

/-- Whether the platform queries all succeeded this tick. -/
def PlatformResult.isOk : PlatformResult → Bool
  | .ok _ _ => true
  | _ => false

/-- One full iteration of the poll loop after the sleep: on any platform
query failure the iteration is abandoned (`continue`) with no send and no
state change; on success the sample is normalized and handed to the
heartbeat-merging tail. -/
def tick (pollTime : Nat) (rules : RuleSet) (sendOk : Nat → Bool)
    (st : MergerState) (obs : PlatformResult) (now : Int) :
    List (HeartbeatEvent × Bool) × MergerState :=
  match obs with
  | .ok processName windowTitle =>
      tickMerge pollTime sendOk st processName (redact rules processName windowTitle) now
  | _ => ([], st)

/-- Pattern loading for one configured string, parametric in the regex
engine: `Regex::new(s)` modelled by `compile`, with fallback
`Regex::new(regex::escape(s)).unwrap()` modelled by compiling the escaped
text; the `unwrap` panic is the `none` result. -/
def loadPattern (compile : String → Option (String → Bool))
    (escape : String → String) (s : String) : Option (String → Bool) :=
  match compile s with
  | some r => some r
  | none => compile (escape s)

/-- Loading of a whole configured pattern list (`iter().map(...).collect()`);
a panic while loading any element aborts startup, modelled as `none`. -/
def loadPatterns (compile : String → Option (String → Bool))
    (escape : String → String) : List String → Option (List (String → Bool))
  | [] => some []
  | s :: rest =>
    match loadPattern compile escape s, loadPatterns compile escape rest with
    | some r, some rs => some (r :: rs)
    | _, _ => none

/-! ## Claim theorems -/

/-- C1, counterexample: a freshly initialized state does not track "nothing"
but the empty sample, so the very first sample (here chrome.exe/Docs, both
sends succeeding) takes the transition branch and emits TWO heartbeats, the
first being a closing heartbeat for the empty sample at `now - 1` ms — the
claim promises exactly one and never a second. -/
theorem cold_start_counterexample :
    (tickMerge 5000 (fun _ => true) initState "chrome.exe" "Docs" 100).1 =
      [(ping 5000 ⟨"", ""⟩ 99, true), (ping 5000 ⟨"chrome.exe", "Docs"⟩ 100, true)] ∧
    (tickMerge 5000 (fun _ => true) initState "chrome.exe" "Docs" 100).1.length ≠ 1 := by
  constructor
  · decide
  · decide

/-- C1, amended: a freshly initialized Merger tracks the empty sample
(`prev_app = prev_title = ""`), so any first sample other than the empty one
triggers a transition: with both sends succeeding it emits two heartbeats —
a spurious closing heartbeat carrying the empty sample at `now - 1` ms, then
the first sample at `now` — and the state becomes the first sample. -/
theorem cold_start_amended (pollTime : Nat) (sendOk : Nat → Bool)
    (app title : String) (now : Int)
    (h0 : sendOk 0 = true) (h1 : sendOk 1 = true)
    (hne : ¬(app = "" ∧ title = "")) :
    tickMerge pollTime sendOk initState app title now =
      ([(ping pollTime ⟨"", ""⟩ (now - 1), true), (ping pollTime ⟨app, title⟩ now, true)],
        ⟨app, title⟩) := by
  simp only [tickMerge, initState]
  rw [if_neg hne, if_pos h0, if_pos h1]

/-- C1, amended, witness at the counterexample input. -/
theorem cold_start_amended_witness :
    tickMerge 5000 (fun _ => true) initState "chrome.exe" "Docs" 100 =
      ([(ping 5000 ⟨"", ""⟩ (100 - 1), true), (ping 5000 ⟨"chrome.exe", "Docs"⟩ 100, true)],
        ⟨"chrome.exe", "Docs"⟩) :=
  cold_start_amended 5000 (fun _ => true) "chrome.exe" "Docs" 100 rfl rfl (by decide)

/-- C2: on a tick whose sample differs from the tracked one, with both sends
succeeding, exactly two heartbeats are emitted in order — the tracked sample
at `now - 1` ms, then the new sample at `now` — the state becomes the new
sample, and the closing timestamp is strictly below the opening one. -/
theorem transition_correct (pollTime : Nat) (sendOk : Nat → Bool) (st : MergerState)
    (app title : String) (now : Int)
    (hne : ¬(app = st.prevApp ∧ title = st.prevTitle))
    (h0 : sendOk 0 = true) (h1 : sendOk 1 = true) :
    tickMerge pollTime sendOk st app title now =
      ([(ping pollTime ⟨st.prevApp, st.prevTitle⟩ (now - 1), true),
        (ping pollTime ⟨app, title⟩ now, true)], ⟨app, title⟩) ∧
    (ping pollTime ⟨st.prevApp, st.prevTitle⟩ (now - 1)).timestamp <
      (ping pollTime ⟨app, title⟩ now).timestamp := by
  constructor
  · simp only [tickMerge]
    rw [if_neg hne, if_pos h0, if_pos h1]
  · show now - 1 < now
    omega

/-- C2, witness. -/
theorem transition_correct_witness :
    tickMerge 5000 (fun _ => true) ⟨"chrome.exe", "Docs"⟩ "code.exe" "main.rs" 10000 =
      ([(ping 5000 ⟨"chrome.exe", "Docs"⟩ (10000 - 1), true),
        (ping 5000 ⟨"code.exe", "main.rs"⟩ 10000, true)], ⟨"code.exe", "main.rs"⟩) ∧
    (ping 5000 ⟨"chrome.exe", "Docs"⟩ (10000 - 1)).timestamp <
      (ping 5000 ⟨"code.exe", "main.rs"⟩ 10000).timestamp :=
  transition_correct 5000 (fun _ => true) ⟨"chrome.exe", "Docs"⟩ "code.exe" "main.rs" 10000
    (by decide) rfl rfl

/-- C3, counterexample: on a transition tick whose sends fail, the source
does `continue` before the assignments to `prev_app` and `prev_title`, so the
state is NOT updated to the new sample — the claim promises an update
regardless of send outcomes. -/
theorem state_advance_counterexample :
    (tickMerge 5000 (fun _ => false) ⟨"a.exe", "A"⟩ "b.exe" "B" 100).2 = ⟨"a.exe", "A"⟩ ∧
    (⟨"a.exe", "A"⟩ : MergerState) ≠ ⟨"b.exe", "B"⟩ := by
  constructor
  · decide
  · decide

/-- C3, amended: on a transition tick the tracked state becomes the new
sample exactly when both heartbeat sends succeed; if either send fails the
iteration is abandoned and the tracked state is unchanged. -/
theorem state_advance_amended (pollTime : Nat) (sendOk : Nat → Bool) (pa pt : String)
    (app title : String) (now : Int)
    (hne : ¬(app = pa ∧ title = pt)) :
    ((tickMerge pollTime sendOk ⟨pa, pt⟩ app title now).2 = ⟨app, title⟩ ↔
      sendOk 0 = true ∧ sendOk 1 = true) ∧
    (sendOk 0 = false ∨ sendOk 1 = false →
      (tickMerge pollTime sendOk ⟨pa, pt⟩ app title now).2 = ⟨pa, pt⟩) := by
  have hst : ¬(pa = app ∧ pt = title) := fun h => hne ⟨h.1.symm, h.2.symm⟩
  unfold tickMerge
  rw [if_neg hne]
  cases h0 : sendOk 0 <;> cases h1 : sendOk 1 <;>
    simp [h0, h1, MergerState.mk.injEq, hst]

/-- C3, amended, witness: with both sends succeeding the state advances;
the iff yields the update at a concrete transition input. -/
theorem state_advance_amended_witness :
    (tickMerge 5000 (fun _ => true) ⟨"a.exe", "A"⟩ "b.exe" "B" 100).2 = ⟨"b.exe", "B"⟩ :=
  ((state_advance_amended 5000 (fun _ => true) "a.exe" "A" "b.exe" "B" 100
    (by decide)).1).mpr ⟨rfl, rfl⟩

/-- C4, counterexample: on a transition tick whose closing send fails, the
source does `continue` immediately, so only ONE heartbeat is attempted and
the opening heartbeat for the new sample is never sent — the claim promises
it is still attempted. -/
theorem independent_sends_counterexample :
    (tickMerge 5000 (fun _ => false) ⟨"a.exe", "A"⟩ "b.exe" "B" 100).1 =
      [(ping 5000 ⟨"a.exe", "A"⟩ 99, false)] := by
  decide

/-- C4, amended: on a transition tick, if the closing heartbeat send fails
the iteration is abandoned: the closing attempt is the only one (the opening
heartbeat is not attempted) and the tracked state is unchanged. -/
theorem close_fail_aborts (pollTime : Nat) (sendOk : Nat → Bool) (st : MergerState)
    (app title : String) (now : Int)
    (hne : ¬(app = st.prevApp ∧ title = st.prevTitle))
    (h0 : sendOk 0 = false) :
    tickMerge pollTime sendOk st app title now =
      ([(ping pollTime ⟨st.prevApp, st.prevTitle⟩ (now - 1), false)], st) := by
  simp only [tickMerge]
  rw [if_neg hne, h0]
  simp

/-- C4, amended, witness. -/
theorem close_fail_aborts_witness :
    tickMerge 5000 (fun _ => false) ⟨"a.exe", "A"⟩ "b.exe" "B" 100 =
      ([(ping 5000 ⟨"a.exe", "A"⟩ (100 - 1), false)], ⟨"a.exe", "A"⟩) :=
  close_fail_aborts 5000 (fun _ => false) ⟨"a.exe", "A"⟩ "b.exe" "B" 100 (by decide) rfl

/-- C5: a tick whose sample equals the tracked one emits exactly one
keep-alive heartbeat carrying that sample at `now` and keeps the state, so
two consecutive such ticks at times `t1 < t2` each emit one heartbeat with
the same sample, the second at the later timestamp. -/
theorem continuation_correct (pollTime : Nat) (sendOk1 sendOk2 : Nat → Bool)
    (st : MergerState) (app title : String) (t1 t2 : Int)
    (heq : app = st.prevApp ∧ title = st.prevTitle) (ht : t1 < t2) :
    tickMerge pollTime sendOk1 st app title t1 =
      ([(ping pollTime ⟨app, title⟩ t1, sendOk1 0)], st) ∧
    tickMerge pollTime sendOk2 st app title t2 =
      ([(ping pollTime ⟨app, title⟩ t2, sendOk2 0)], st) ∧
    (ping pollTime ⟨app, title⟩ t1).timestamp < (ping pollTime ⟨app, title⟩ t2).timestamp := by
  refine ⟨?_, ?_, ht⟩
  · simp only [tickMerge]
    rw [if_pos heq]
  · simp only [tickMerge]
    rw [if_pos heq]

/-- C5, witness. -/
theorem continuation_correct_witness :
    tickMerge 5000 (fun _ => true) ⟨"chrome.exe", "Docs"⟩ "chrome.exe" "Docs" 0 =
      ([(ping 5000 ⟨"chrome.exe", "Docs"⟩ 0, true)], ⟨"chrome.exe", "Docs"⟩) ∧
    tickMerge 5000 (fun _ => true) ⟨"chrome.exe", "Docs"⟩ "chrome.exe" "Docs" 5000 =
      ([(ping 5000 ⟨"chrome.exe", "Docs"⟩ 5000, true)], ⟨"chrome.exe", "Docs"⟩) ∧
    (ping 5000 ⟨"chrome.exe", "Docs"⟩ 0).timestamp <
      (ping 5000 ⟨"chrome.exe", "Docs"⟩ 5000).timestamp :=
  continuation_correct 5000 (fun _ => true) (fun _ => true) ⟨"chrome.exe", "Docs"⟩
    "chrome.exe" "Docs" 0 5000 ⟨rfl, rfl⟩ (by decide)

/-- C6: whenever some include pattern matches the process name, the redacted
title is the raw window title, whatever the global flag and the exclude
patterns say. -/
theorem include_overrides (rules : RuleSet) (processName windowTitle : String)
    (hinc : rules.includeTitleProcesses.any (fun r => r processName) = true) :
    redact rules processName windowTitle = windowTitle := by
  simp [redact, hinc]

/-- C6, witness: global exclusion on and an exclude pattern matching, yet an
include pattern matches, so the raw title is kept. -/
theorem include_overrides_witness :
    redact ⟨true, [fun _ => true], [fun s => s == "secret.exe"]⟩
      "secret.exe" "Confidential Plan" = "Confidential Plan" :=
  include_overrides ⟨true, [fun _ => true], [fun s => s == "secret.exe"]⟩
    "secret.exe" "Confidential Plan" (by decide)

/-- C7: for a regex engine whose escaped text always compiles (the guarantee
of the escape function of the regex crate), loading a configured pattern list
never aborts startup, yields one compiled pattern per configured string, and
a string whose direct compilation fails is loaded as the compilation of its
escaped literal text. -/
theorem regex_fallback (compile : String → Option (String → Bool))
    (escape : String → String) (patterns : List String) (s : String)
    (hesc : ∀ u, (compile (escape u)).isSome = true) :
    (loadPatterns compile escape patterns).isSome = true ∧
    Option.map List.length (loadPatterns compile escape patterns) = some patterns.length ∧
    (compile s = none → loadPattern compile escape s = compile (escape s)) := by
  have hone : ∀ u, (loadPattern compile escape u).isSome = true := by
    intro u
    unfold loadPattern
    cases hc : compile u
    · exact hesc u
    · rfl
  have hmain : ∀ ps : List String, ∃ rs, loadPatterns compile escape ps = some rs ∧
      rs.length = ps.length := by
    intro ps
    induction ps with
    | nil => exact ⟨[], rfl, rfl⟩
    | cons a as ih =>
      obtain ⟨rs, hrs, hlen⟩ := ih
      obtain ⟨r, hr⟩ := Option.isSome_iff_exists.mp (hone a)
      exact ⟨r :: rs, by simp [loadPatterns, hr, hrs], by simp [hlen]⟩
  obtain ⟨rs, hrs, hlen⟩ := hmain patterns
  refine ⟨by simp [hrs], by simp [hrs, hlen], ?_⟩
  intro hc
  simp [loadPattern, hc]

/-- Concrete regex engine for the C7 witness: only the string "lit"
compiles, and escaping maps every string to "lit". -/
def compile0 : String → Option (String → Bool) :=
  fun s => if s = "lit" then some (fun t => t == "lit") else none

/-- Concrete escape function for the C7 witness. -/
def escape0 : String → String := fun _ => "lit"

/-- C7, witness: the single configured pattern "[" does not compile directly
and is loaded through the escape fallback. -/
theorem regex_fallback_witness :
    (loadPatterns compile0 escape0 ["["]).isSome = true ∧
    Option.map List.length (loadPatterns compile0 escape0 ["["]) =
      some (["["] : List String).length ∧
    (compile0 "[" = none → loadPattern compile0 escape0 "[" = compile0 (escape0 "[")) :=
  regex_fallback compile0 escape0 ["["] "["
    (by intro u; show (compile0 "lit").isSome = true; decide)

/-- C8: when any platform query of the tick fails, the loop body is
abandoned: no heartbeat is attempted and the tracked state is unchanged (the
merge logic is not reached). -/
theorem transient_skip (pollTime : Nat) (rules : RuleSet) (sendOk : Nat → Bool)
    (st : MergerState) (obs : PlatformResult) (now : Int)
    (hfail : obs.isOk = false) :
    tick pollTime rules sendOk st obs now = ([], st) := by
  cases obs <;> simp_all [tick, PlatformResult.isOk]

/-- C8, witness: a tick with no focused window. -/
theorem transient_skip_witness :
    tick 5000 ⟨false, [], []⟩ (fun _ => true) initState PlatformResult.noWindow 100 =
      ([], initState) :=
  transient_skip 5000 ⟨false, [], []⟩ (fun _ => true) initState PlatformResult.noWindow 100 rfl

/-- C9, counterexample: at a poll time of 4294967295 ms (the largest `u32`),
the `u32` sum `poll_time + 1000` wraps to 999, so the merge window is
neither `poll_time + 1000` nor strictly greater than the poll time. -/
theorem merge_window_counterexample :
    (ping 4294967295 ⟨"a", "b"⟩ 0).mergeWindow = 999 ∧
    (ping 4294967295 ⟨"a", "b"⟩ 0).mergeWindow ≠ 4294967295 + 1000 ∧
    ¬(4294967295 < (ping 4294967295 ⟨"a", "b"⟩ 0).mergeWindow) := by
  refine ⟨?_, ?_, ?_⟩ <;> decide

/-- C9, amended: the merge window is `(poll_time + 1000) mod 2 ^ 32`; for
every poll time with `poll_time + 1000 < 2 ^ 32` it equals
`poll_time + 1000`, is strictly greater than the poll time, and every
heartbeat attempted by a tick carries exactly this merge window. -/
theorem merge_window_amended (pollTime : Nat) (rules : RuleSet) (sendOk : Nat → Bool)
    (st : MergerState) (obs : PlatformResult) (now : Int)
    (data : ActivitySample) (ts : Int)
    (hp : pollTime + 1000 < 2 ^ 32) :
    (ping pollTime data ts).mergeWindow = pollTime + 1000 ∧
    pollTime < (ping pollTime data ts).mergeWindow ∧
    (tick pollTime rules sendOk st obs now).1.all
      (fun p => p.1.mergeWindow == pollTime + 1000) = true := by
  have hmw : ∀ d t, (ping pollTime d t).mergeWindow = pollTime + 1000 := by
    intro d t
    show (pollTime + 1000) % 2 ^ 32 = pollTime + 1000
    exact Nat.mod_eq_of_lt hp
  refine ⟨hmw data ts, ?_, ?_⟩
  · rw [hmw]
    omega
  · cases obs <;> simp only [tick] <;>
      [simp; simp; simp; simp; simp; (unfold tickMerge; split_ifs <;> simp [hmw])]

/-- C9, amended, witness at poll time 5000 on a successful tick. -/
theorem merge_window_amended_witness :
    (ping 5000 ⟨"chrome.exe", "Docs"⟩ 0).mergeWindow = 5000 + 1000 ∧
    5000 < (ping 5000 ⟨"chrome.exe", "Docs"⟩ 0).mergeWindow ∧
    (tick 5000 ⟨false, [], []⟩ (fun _ => true) initState
      (PlatformResult.ok "chrome.exe" "Docs") 0).1.all
      (fun p => p.1.mergeWindow == 5000 + 1000) = true :=
  merge_window_amended 5000 ⟨false, [], []⟩ (fun _ => true) initState
    (PlatformResult.ok "chrome.exe" "Docs") 0 ⟨"chrome.exe", "Docs"⟩ 0 (by decide)

/-- C10: the reported title of the normalized sample is always the raw
window title or the process name, and can only be empty when one of those
inputs is empty. -/
theorem redact_range (rules : RuleSet) (processName windowTitle : String) :
    ((normalizeSample rules processName windowTitle).title = windowTitle ∨
     (normalizeSample rules processName windowTitle).title = processName) ∧
    ((normalizeSample rules processName windowTitle).title = "" →
      windowTitle = "" ∨ processName = "") := by
  unfold normalizeSample redact
  dsimp only
  split
  · exact ⟨Or.inr rfl, fun h => Or.inr h⟩
  · exact ⟨Or.inl rfl, fun h => Or.inl h⟩

/-- C10, witness at a concrete input. -/
theorem redact_range_witness :
    ((normalizeSample ⟨true, [], []⟩ "p.exe" "T").title = "T" ∨
     (normalizeSample ⟨true, [], []⟩ "p.exe" "T").title = "p.exe") ∧
    ((normalizeSample ⟨true, [], []⟩ "p.exe" "T").title = "" →
      "T" = "" ∨ "p.exe" = "") :=
  redact_range ⟨true, [], []⟩ "p.exe" "T"
